import Mathlib

/-!
Verification of the `sscha` command-line driver script shipped in
`Tutorials/LaH10/VariableCellRelaxation.ipynb` and of the example namelist
input `Examples/LockModes/simple_mode_locking.in` of the python-sscha
tutorial repository.

The driver is a straight-line Python script:

  * `is_valid_file(parser, arg)` calls `parser.error` when `os.path.exists(arg)`
    is false, else returns `arg` unchanged;
  * an `argparse` parser with exactly three arguments (`-i`, `--plot-results`,
    `--save-data`);
  * then, in order: construct `SSCHA_Minimizer()`, `open(args.filename, "r")`,
    `readlines`, `close`, `setup_from_namelist(line_list)`, `init()`, `run()`,
    `finalize(2)`, `dyn.save_qe(dyn_path + "_popuation%d_" % population)`,
    `plot_results(args.save_data, args.plot)`.

We embed the script as a function from a filesystem model and the outcomes of
the externally-defined library calls to a trace of events plus an outcome
(parser error, uncaught exception, or normal completion).
-/

namespace Sscha

/-- Filesystem model: the set of existing directories, and the existing regular
files together with the list of lines `readlines` returns for them. -/
structure FileSystem where
  dirs : List String
  files : List (String × List String)
  deriving Repr, DecidableEq

/-- Embedding of Python's `os.path.exists`: true on directories and regular
files alike. -/
def FileSystem.pathExists (fs : FileSystem) (p : String) : Bool :=
  fs.dirs.contains p || (fs.files.map Prod.fst).contains p

/-- Whether `open(p, "r")` followed by `readlines` succeeds: only on regular
files (opening a directory raises `IsADirectoryError`). -/
def FileSystem.isRegularFile (fs : FileSystem) (p : String) : Bool :=
  (fs.files.map Prod.fst).contains p

/-- The list of lines `fp.readlines()` returns for a regular file. -/
def FileSystem.readLines (fs : FileSystem) (p : String) : List String :=
  ((fs.files.find? (fun q => q.fst == p)).map Prod.snd).getD []

/-- Embedding of the script's `is_valid_file(parser, arg)`: when the path does
not exist it calls `parser.error("The file %s does not exists!" % arg)`, which
aborts argument parsing; otherwise it returns `arg` unchanged. -/
def is_valid_file (fs : FileSystem) (arg : String) : Except String String :=
  if !(fs.pathExists arg) then
    Except.error ("The file " ++ arg ++ " does not exists!")
  else
    Except.ok arg

/-- One `parser.add_argument` call of the script: the option string, `dest`,
`required`, whether `action = "store_true"` was given, the `metavar`, and the
help text. -/
structure ArgSpec where
  flag : String
  dest : String
  required : Bool
  storeTrue : Bool
  metavarName : Option String
  helpText : String
  deriving Repr, DecidableEq

/-- The argument table built by the three `parser.add_argument` calls of the
script, in source order. No other argument is added. -/
def parserArguments : List ArgSpec :=
  [ { flag := "-i", dest := "filename", required := true, storeTrue := false,
      metavarName := some "FILE", helpText := "Path to the input file" },
    { flag := "--plot-results", dest := "plot", required := false, storeTrue := true,
      metavarName := none, helpText := "Plot the results" },
    { flag := "--save-data", dest := "save_data", required := false, storeTrue := false,
      metavarName := some "FILE", helpText := "Save the minimization details" } ]

/-- The namespace object returned by `parser.parse_args()`. -/
structure Args where
  filename : String
  plot : Bool
  save_data : Option String
  deriving Repr, DecidableEq

/-- Embedding of `args = parser.parse_args()` for an invocation supplying
`iArg` after `-i`, the `--plot-results` flag iff `plotFlag`, and `--save-data`
iff `saveData` is `some`. The `type` callback of `-i` runs `is_valid_file`;
`parser.error` aborts parsing before any further statement of the script. -/
def parse_args (fs : FileSystem) (iArg : String) (plotFlag : Bool)
    (saveData : Option String) : Except String Args :=
  match is_valid_file fs iArg with
  | Except.error msg => Except.error msg
  | Except.ok f => Except.ok { filename := f, plot := plotFlag, save_data := saveData }

/-- Outcomes of the externally-defined SSCHA library calls made by the script,
together with the two minimizer fields the script reads (`dyn_path` and
`population`). Each call either returns normally or raises an exception
carried as a message. -/
structure ExternalLib where
  setup_from_namelist : List String → Except String Unit
  init_result : Except String Unit
  run_result : Except String Unit
  finalize_result : Int → Except String Unit
  dyn_path : String
  population : Int

/-- Observable steps of the driver script, in the order it performs them. -/
inductive Event where
  | constructMinimizer : Event
  | openFile : String → String → Event
  | readlines : String → Event
  | closeFile : String → Event
  | setupFromNamelist : List String → Event
  | initCall : Event
  | runCall : Event
  | finalizeCall : Int → Event
  | saveQE : String → Event
  | plotResults : Option String → Bool → Event
  deriving Repr, DecidableEq

/-- How a run of the script ends: `parser.error` at argument-parse time, an
uncaught exception propagating out of the script, or normal completion. -/
inductive Outcome where
  | parserError : String → Outcome
  | uncaught : String → Outcome
  | completed : Outcome
  deriving Repr, DecidableEq

/-- The trace of steps the script performed and how the run ended. -/
structure RunResult where
  trace : List Event
  outcome : Outcome
  deriving Repr, DecidableEq

/-- The filename argument of `minim.dyn.save_qe`:
`minim.dyn_path + "_popuation%d_" % minim.population` (note `%` binds tighter
than `+` in Python). -/
def dynSaveName (ext : ExternalLib) : String :=
  ext.dyn_path ++ "_popuation" ++ toString ext.population ++ "_"

/-- Straight-line embedding of the driver script body after the definitions:
parse arguments, construct the minimizer, open/read/close the input file, call
`setup_from_namelist`, `init`, `run`, `finalize(2)`, save the final dynamical
matrix, and call `plot_results(args.save_data, args.plot)`. The script has no
exception handler, so the first raising call ends the run with its error. -/
def sscha_main (fs : FileSystem) (ext : ExternalLib) (iArg : String)
    (plotFlag : Bool) (saveData : Option String) : RunResult :=
  match parse_args fs iArg plotFlag saveData with
  | Except.error msg => { trace := [], outcome := Outcome.parserError msg }
  | Except.ok args =>
    let t0 : List Event := [Event.constructMinimizer]
    if fs.isRegularFile args.filename then
      let line_list := fs.readLines args.filename
      let t1 := t0 ++ [Event.openFile args.filename "r", Event.readlines args.filename,
                       Event.closeFile args.filename]
      match ext.setup_from_namelist line_list with
      | Except.error e =>
        { trace := t1 ++ [Event.setupFromNamelist line_list], outcome := Outcome.uncaught e }
      | Except.ok _ =>
        let t2 := t1 ++ [Event.setupFromNamelist line_list]
        match ext.init_result with
        | Except.error e => { trace := t2 ++ [Event.initCall], outcome := Outcome.uncaught e }
        | Except.ok _ =>
          let t3 := t2 ++ [Event.initCall]
          match ext.run_result with
          | Except.error e => { trace := t3 ++ [Event.runCall], outcome := Outcome.uncaught e }
          | Except.ok _ =>
            let t4 := t3 ++ [Event.runCall]
            match ext.finalize_result 2 with
            | Except.error e =>
              { trace := t4 ++ [Event.finalizeCall 2], outcome := Outcome.uncaught e }
            | Except.ok _ =>
              { trace := t4 ++ [Event.finalizeCall 2, Event.saveQE (dynSaveName ext),
                                Event.plotResults args.save_data args.plot],
                outcome := Outcome.completed }
    else
      { trace := t0 ++ [Event.openFile args.filename "r"],
        outcome := Outcome.uncaught ("IsADirectoryError: " ++ args.filename) }

/-- The full event trace of a run in which every external call returns
normally. -/
def successTrace (ext : ExternalLib) (filename : String) (lines : List String)
    (saveData : Option String) (plotFlag : Bool) : List Event :=
  [Event.constructMinimizer, Event.openFile filename "r", Event.readlines filename,
   Event.closeFile filename, Event.setupFromNamelist lines, Event.initCall,
   Event.runCall, Event.finalizeCall 2, Event.saveQE (dynSaveName ext),
   Event.plotResults saveData plotFlag]

/-- Concrete external library whose calls all succeed, used to instantiate the
general theorems. -/
def extOk : ExternalLib :=
  { setup_from_namelist := fun _ => Except.ok (), init_result := Except.ok (),
    run_result := Except.ok (), finalize_result := fun _ => Except.ok (),
    dyn_path := "dyn", population := 2 }

/-- Shared lemma: when the `-i` path is a regular file and every external call
returns normally, the run is exactly the success trace and completes. -/
theorem sscha_main_success (fs : FileSystem) (ext : ExternalLib) (iArg : String)
    (plotFlag : Bool) (saveData : Option String)
    (hfile : fs.isRegularFile iArg = true)
    (hsetup : ext.setup_from_namelist (fs.readLines iArg) = Except.ok ())
    (hinit : ext.init_result = Except.ok ())
    (hrun : ext.run_result = Except.ok ())
    (hfin : ext.finalize_result 2 = Except.ok ()) :
    sscha_main fs ext iArg plotFlag saveData =
      { trace := successTrace ext iArg (fs.readLines iArg) saveData plotFlag,
        outcome := Outcome.completed } := by
  have hex : fs.pathExists iArg = true := by
    unfold FileSystem.pathExists
    unfold FileSystem.isRegularFile at hfile
    rw [hfile, Bool.or_true]
  unfold sscha_main parse_args is_valid_file
  simp [hex, hfile, hsetup, hinit, hrun, hfin, successTrace]

/-- C1: when the path given to `-i` does not exist, the run ends in a
`parser.error` with the script's message, the input file is never opened, and
the trace is empty: no `SSCHA_Minimizer` is constructed and no lifecycle
method is called. -/
theorem C1_nonexistent_path_parser_error (fs : FileSystem) (ext : ExternalLib)
    (iArg : String) (plotFlag : Bool) (saveData : Option String)
    (h : fs.pathExists iArg = false) :
    sscha_main fs ext iArg plotFlag saveData =
      { trace := [],
        outcome := Outcome.parserError ("The file " ++ iArg ++ " does not exists!") } := by
  unfold sscha_main parse_args is_valid_file
  simp [h]

/-- Witness for C1 at a concrete empty filesystem and input path. -/
theorem C1_witness :
    sscha_main ⟨[], []⟩ extOk "missing.in" false none =
      { trace := [],
        outcome := Outcome.parserError "The file missing.in does not exists!" } :=
  C1_nonexistent_path_parser_error ⟨[], []⟩ extOk "missing.in" false none (by rfl)

/-- C2: when the `-i` path is an existing regular file (and the external calls
return normally, as the claim's "executes" presumes), the driver performs
exactly, in order and each exactly once: construct the minimizer, open the
file, read all its lines, close it, `setup_from_namelist`, `init`, `run`,
`finalize(2)` — construction and configuration strictly before `run` and
`finalize` — followed by the save and the `plot_results` call. -/
theorem C2_success_sequence (fs : FileSystem) (ext : ExternalLib) (iArg : String)
    (plotFlag : Bool) (saveData : Option String)
    (hfile : fs.isRegularFile iArg = true)
    (hsetup : ext.setup_from_namelist (fs.readLines iArg) = Except.ok ())
    (hinit : ext.init_result = Except.ok ())
    (hrun : ext.run_result = Except.ok ())
    (hfin : ext.finalize_result 2 = Except.ok ()) :
    sscha_main fs ext iArg plotFlag saveData =
      { trace := [Event.constructMinimizer, Event.openFile iArg "r",
                  Event.readlines iArg, Event.closeFile iArg,
                  Event.setupFromNamelist (fs.readLines iArg), Event.initCall,
                  Event.runCall, Event.finalizeCall 2, Event.saveQE (dynSaveName ext),
                  Event.plotResults saveData plotFlag],
        outcome := Outcome.completed } :=
  sscha_main_success fs ext iArg plotFlag saveData hfile hsetup hinit hrun hfin

/-- Witness for C2 at a concrete filesystem holding one regular file and the
all-succeeding external library. -/
theorem C2_witness :
    sscha_main ⟨[], [("input.in", ["&inputscha", "&end"])]⟩ extOk "input.in" true
        (some "out.dat") =
      { trace := [Event.constructMinimizer, Event.openFile "input.in" "r",
                  Event.readlines "input.in", Event.closeFile "input.in",
                  Event.setupFromNamelist ["&inputscha", "&end"], Event.initCall,
                  Event.runCall, Event.finalizeCall 2,
                  Event.saveQE "dyn_popuation2_",
                  Event.plotResults (some "out.dat") true],
        outcome := Outcome.completed } :=
  C2_success_sequence ⟨[], [("input.in", ["&inputscha", "&end"])]⟩ extOk "input.in"
    true (some "out.dat") (by rfl) (by rfl) rfl rfl rfl

/-- C8: `is_valid_file` is the identity on accepted inputs: for an existing
path it returns the path string unchanged, so `args.filename` is exactly the
string supplied after `-i`, with no normalization or rewriting. -/
theorem C8_is_valid_file_identity (fs : FileSystem) (p : String)
    (plotFlag : Bool) (saveData : Option String)
    (h : fs.pathExists p = true) :
    is_valid_file fs p = Except.ok p ∧
    parse_args fs p plotFlag saveData =
      Except.ok { filename := p, plot := plotFlag, save_data := saveData } := by
  unfold parse_args is_valid_file
  simp [h]

/-- Witness for C8 at a concrete existing path, including one that is not in
normal form, returned verbatim. -/
theorem C8_witness :
    is_valid_file ⟨[], [("./sub/../input.in", [])]⟩ "./sub/../input.in" =
      Except.ok "./sub/../input.in" ∧
    parse_args ⟨[], [("./sub/../input.in", [])]⟩ "./sub/../input.in" false none =
      Except.ok { filename := "./sub/../input.in", plot := false, save_data := none } :=
  C8_is_valid_file_identity ⟨[], [("./sub/../input.in", [])]⟩ "./sub/../input.in"
    false none (by rfl)

/-- C3: the command-line interface defines exactly three arguments, in source
order: `-i FILE` (required, value-taking, dest `filename`), `--plot-results`
(optional boolean `store_true` flag, dest `plot`), and `--save-data FILE`
(optional, value-taking, dest `save_data`); no other argument exists. -/
theorem C3_exactly_three_arguments :
    parserArguments.length = 3 ∧
    parserArguments.map ArgSpec.flag = ["-i", "--plot-results", "--save-data"] ∧
    parserArguments.map ArgSpec.dest = ["filename", "plot", "save_data"] ∧
    parserArguments.map ArgSpec.required = [true, false, false] ∧
    parserArguments.map ArgSpec.storeTrue = [false, true, false] ∧
    parserArguments.map ArgSpec.metavarName = [some "FILE", none, some "FILE"] := by
  refine ⟨rfl, rfl, rfl, rfl, rfl, rfl⟩

/-- Outcome determined purely by the filesystem and the external library's
results: an `IsADirectoryError` when `open` fails, otherwise the first error
among `setup_from_namelist`, `init`, `run`, `finalize(2)` verbatim, otherwise
completion. -/
def externalOutcome (fs : FileSystem) (ext : ExternalLib) (filename : String) : Outcome :=
  if fs.isRegularFile filename then
    match ext.setup_from_namelist (fs.readLines filename) with
    | Except.error e => Outcome.uncaught e
    | Except.ok _ =>
      match ext.init_result with
      | Except.error e => Outcome.uncaught e
      | Except.ok _ =>
        match ext.run_result with
        | Except.error e => Outcome.uncaught e
        | Except.ok _ =>
          match ext.finalize_result 2 with
          | Except.error e => Outcome.uncaught e
          | Except.ok _ => Outcome.completed
  else Outcome.uncaught ("IsADirectoryError: " ++ filename)

/-- C4: once argument parsing succeeds, the script defines no handler, retry,
or local exit code: the run's outcome is exactly the outcome dictated by the
external calls — every failure (unreadable path, `setup_from_namelist`,
`init`, `run`, `finalize`) propagates uncaught and verbatim, and no
`parser.error` outcome is possible. -/
theorem C4_errors_propagate_uncaught (fs : FileSystem) (ext : ExternalLib)
    (iArg : String) (plotFlag : Bool) (saveData : Option String)
    (hex : fs.pathExists iArg = true) :
    (sscha_main fs ext iArg plotFlag saveData).outcome = externalOutcome fs ext iArg := by
  unfold sscha_main parse_args is_valid_file externalOutcome
  cases hfile : fs.isRegularFile iArg with
  | false => simp [hex, hfile]
  | true =>
    cases hs : ext.setup_from_namelist (fs.readLines iArg) with
    | error e => simp [hex, hfile, hs]
    | ok u =>
      cases u
      cases hi : ext.init_result with
      | error e => simp [hex, hfile, hs, hi]
      | ok u =>
        cases u
        cases hr : ext.run_result with
        | error e => simp [hex, hfile, hs, hi, hr]
        | ok u =>
          cases u
          cases hf : ext.finalize_result 2 with
          | error e => simp [hex, hfile, hs, hi, hr, hf]
          | ok u => cases u; simp [hex, hfile, hs, hi, hr, hf]

/-- Concrete external library whose `setup_from_namelist` raises. -/
def extSetupFails : ExternalLib :=
  { extOk with setup_from_namelist := fun _ => Except.error "bad namelist" }

/-- Witness for C4: with a concrete failing `setup_from_namelist`, its error
message surfaces verbatim as the uncaught outcome. -/
theorem C4_witness :
    (sscha_main ⟨[], [("input.in", ["garbage"])]⟩ extSetupFails "input.in" false
        none).outcome = Outcome.uncaught "bad namelist" :=
  C4_errors_propagate_uncaught ⟨[], [("input.in", ["garbage"])]⟩ extSetupFails
    "input.in" false none (by rfl)

/-- C9: `is_valid_file` tests only existence, so an existing directory passes
argument parsing; the run then constructs the minimizer and fails uncaught at
`open(args.filename, "r")`, after construction. -/
theorem C9_directory_passes_parsing (fs : FileSystem) (ext : ExternalLib)
    (p : String) (plotFlag : Bool) (saveData : Option String)
    (hex : fs.pathExists p = true) (hdir : fs.isRegularFile p = false) :
    parse_args fs p plotFlag saveData =
      Except.ok { filename := p, plot := plotFlag, save_data := saveData } ∧
    sscha_main fs ext p plotFlag saveData =
      { trace := [Event.constructMinimizer, Event.openFile p "r"],
        outcome := Outcome.uncaught ("IsADirectoryError: " ++ p) } := by
  constructor
  · unfold parse_args is_valid_file
    simp [hex]
  · unfold sscha_main parse_args is_valid_file
    simp [hex, hdir]

/-- Witness for C9 at a filesystem holding a directory named `mydir`. -/
theorem C9_witness :
    parse_args ⟨["mydir"], []⟩ "mydir" false none =
      Except.ok { filename := "mydir", plot := false, save_data := none } ∧
    sscha_main ⟨["mydir"], []⟩ extOk "mydir" false none =
      { trace := [Event.constructMinimizer, Event.openFile "mydir" "r"],
        outcome := Outcome.uncaught "IsADirectoryError: mydir" } :=
  C9_directory_passes_parsing ⟨["mydir"], []⟩ extOk "mydir" false none (by rfl) (by rfl)

/-- Modelled from the spec: the body of `SSCHA_Minimizer.plot_results` is not
under `src/` (only its call site `minim.plot_results(args.save_data, args.plot)`
is); per the spec the entry point "optionally plots/saves results", so the call
plots exactly when its plot-flag argument is true. -/
def plot_results_plots (_saveData : Option String) (plot : Bool) : Bool :=
  plot

/-- Modelled from the spec: per the spec the entry point "optionally
plots/saves results", so the `plot_results` call saves the minimization data
exactly when a save-file argument is given. -/
def plot_results_saves (saveData : Option String) (_plot : Bool) : Bool :=
  saveData.isSome

/-- C5: in a run that completes the minimization, the driver calls
`plot_results` exactly once, as the last step, passing exactly the parsed
`--save-data` path and `--plot-results` flag; under the spec-modelled
semantics of `plot_results`, plotting happens iff `--plot-results` was given
and data is saved iff `--save-data FILE` was given. -/
theorem C5_plot_save_optional (fs : FileSystem) (ext : ExternalLib) (iArg : String)
    (plotFlag : Bool) (saveData : Option String)
    (hfile : fs.isRegularFile iArg = true)
    (hsetup : ext.setup_from_namelist (fs.readLines iArg) = Except.ok ())
    (hinit : ext.init_result = Except.ok ())
    (hrun : ext.run_result = Except.ok ())
    (hfin : ext.finalize_result 2 = Except.ok ()) :
    (sscha_main fs ext iArg plotFlag saveData).trace.count
        (Event.plotResults saveData plotFlag) = 1 ∧
    (sscha_main fs ext iArg plotFlag saveData).trace.getLast? =
      some (Event.plotResults saveData plotFlag) ∧
    (plot_results_plots saveData plotFlag = true ↔ plotFlag = true) ∧
    (plot_results_saves saveData plotFlag = true ↔ saveData.isSome = true) := by
  rw [sscha_main_success fs ext iArg plotFlag saveData hfile hsetup hinit hrun hfin]
  refine ⟨?_, ?_, Iff.rfl, Iff.rfl⟩
  · simp [successTrace, List.count_cons]
  · simp [successTrace]

/-- Witness for C5 at a concrete completed run with both output options
given. -/
theorem C5_witness :
    (sscha_main ⟨[], [("input.in", ["&inputscha", "&end"])]⟩ extOk "input.in" true
        (some "out.dat")).trace.count (Event.plotResults (some "out.dat") true) = 1 ∧
    (sscha_main ⟨[], [("input.in", ["&inputscha", "&end"])]⟩ extOk "input.in" true
        (some "out.dat")).trace.getLast? =
      some (Event.plotResults (some "out.dat") true) ∧
    (plot_results_plots (some "out.dat") true = true ↔ true = true) ∧
    (plot_results_saves (some "out.dat") true = true ↔
      (some "out.dat" : Option String).isSome = true) :=
  C5_plot_save_optional ⟨[], [("input.in", ["&inputscha", "&end"])]⟩ extOk "input.in"
    true (some "out.dat") (by rfl) (by rfl) rfl rfl rfl

/-- C6: in every run in which `finalize` returns, the driver saves the final
dynamical matrix exactly once, with filename prefix
`dyn_path ++ "_popuation" ++ population ++ "_"` (the literal misspelling is in
the source), and this save is the ninth step, immediately after
`finalize(2)` and immediately before the `plot_results` call. -/
theorem C6_persist_once_before_plot (fs : FileSystem) (ext : ExternalLib)
    (iArg : String) (plotFlag : Bool) (saveData : Option String)
    (hfile : fs.isRegularFile iArg = true)
    (hsetup : ext.setup_from_namelist (fs.readLines iArg) = Except.ok ())
    (hinit : ext.init_result = Except.ok ())
    (hrun : ext.run_result = Except.ok ())
    (hfin : ext.finalize_result 2 = Except.ok ()) :
    (sscha_main fs ext iArg plotFlag saveData).trace.count
        (Event.saveQE (ext.dyn_path ++ "_popuation" ++ toString ext.population ++ "_"))
        = 1 ∧
    (sscha_main fs ext iArg plotFlag saveData).trace.drop 7 =
      [Event.finalizeCall 2,
       Event.saveQE (ext.dyn_path ++ "_popuation" ++ toString ext.population ++ "_"),
       Event.plotResults saveData plotFlag] := by
  rw [sscha_main_success fs ext iArg plotFlag saveData hfile hsetup hinit hrun hfin]
  constructor
  · simp [successTrace, List.count_cons, dynSaveName]
  · simp [successTrace, dynSaveName]

/-- Witness for C6 at a concrete completed run: the save prefix is
`dyn_popuation2_` and it immediately follows `finalize(2)` and precedes the
plot call. -/
theorem C6_witness :
    (sscha_main ⟨[], [("input.in", ["&inputscha", "&end"])]⟩ extOk "input.in" false
        none).trace.count (Event.saveQE ("dyn" ++ "_popuation" ++ toString (2 : Int)
          ++ "_")) = 1 ∧
    (sscha_main ⟨[], [("input.in", ["&inputscha", "&end"])]⟩ extOk "input.in" false
        none).trace.drop 7 =
      [Event.finalizeCall 2,
       Event.saveQE ("dyn" ++ "_popuation" ++ toString (2 : Int) ++ "_"),
       Event.plotResults none false] :=
  C6_persist_once_before_plot ⟨[], [("input.in", ["&inputscha", "&end"])]⟩ extOk
    "input.in" false none (by rfl) (by rfl) rfl rfl rfl

/-- Whether an event is a `setup_from_namelist` or minimizer lifecycle /
output call. -/
def lifecycleEvent : Event → Bool
  | Event.setupFromNamelist _ => true
  | Event.initCall => true
  | Event.runCall => true
  | Event.finalizeCall _ => true
  | Event.saveQE _ => true
  | Event.plotResults _ _ => true
  | _ => false

/-- Every `open` in the trace uses mode `"r"`. -/
def opensReadOnly : List Event → Bool
  | [] => true
  | Event.openFile _ m :: rest => m == "r" && opensReadOnly rest
  | _ :: rest => opensReadOnly rest

/-- Whether an event closes the given file. -/
def isCloseOf (filename : String) : Event → Bool
  | Event.closeFile p => p == filename
  | _ => false

/-- No `setup_from_namelist` or lifecycle call happens before the input file
is closed. -/
def noLifecycleBeforeClose (filename : String) : List Event → Bool
  | [] => true
  | e :: rest =>
    if isCloseOf filename e then true
    else !(lifecycleEvent e) && noLifecycleBeforeClose filename rest

/-- Paths an event writes to. Only the two external persistence calls write
anything; the driver itself performs no write. -/
def writeTargets : Event → List String
  | Event.saveQE p => [p]
  | Event.plotResults (some f) _ => [f]
  | _ => []

/-- Modelled from the spec: the bodies of `dyn.save_qe` and of the saving part
of `plot_results` are not under `src/` (only their call sites are); per the
spec they persist the resulting structure / minimization data to their
configured target paths. All other events leave the filesystem unchanged. -/
def applyEvent (fs : FileSystem) : Event → FileSystem
  | Event.saveQE p => { fs with files := (p, ["<dynamical matrix>"]) :: fs.files }
  | Event.plotResults (some f) _ => { fs with files := (f, ["<minimization data>"]) :: fs.files }
  | _ => fs

/-- Shadowing a filesystem with an entry for a different path does not change
what `readlines` returns for a path. -/
theorem readLines_cons_ne (dirs : List String) (files : List (String × List String))
    (p : String) (ls : List String) (q : String) (h : p ≠ q) :
    FileSystem.readLines ⟨dirs, (p, ls) :: files⟩ q =
      FileSystem.readLines ⟨dirs, files⟩ q := by
  have hb : (p == q) = false := by
    simp [h]
  unfold FileSystem.readLines
  simp only [List.find?, hb]

/-- Shared lemma: when the `-i` path does not exist the run is the empty
trace with a parser error. -/
theorem sscha_main_nonexistent (fs : FileSystem) (ext : ExternalLib) (iArg : String)
    (plotFlag : Bool) (saveData : Option String)
    (h : fs.pathExists iArg = false) :
    sscha_main fs ext iArg plotFlag saveData =
      { trace := [],
        outcome := Outcome.parserError ("The file " ++ iArg ++ " does not exists!") } := by
  unfold sscha_main parse_args is_valid_file
  simp [h]

/-- Shared lemma: when the `-i` path exists but is not a regular file the run
constructs the minimizer, fails at `open`, and raises uncaught. -/
theorem sscha_main_notfile (fs : FileSystem) (ext : ExternalLib) (iArg : String)
    (plotFlag : Bool) (saveData : Option String)
    (hex : fs.pathExists iArg = true) (hdir : fs.isRegularFile iArg = false) :
    sscha_main fs ext iArg plotFlag saveData =
      { trace := [Event.constructMinimizer, Event.openFile iArg "r"],
        outcome := Outcome.uncaught ("IsADirectoryError: " ++ iArg) } := by
  unfold sscha_main parse_args is_valid_file
  simp [hex, hdir]

/-- Shared lemma: a failing `setup_from_namelist` ends the run there with its
error uncaught. -/
theorem sscha_main_setup_error (fs : FileSystem) (ext : ExternalLib) (iArg : String)
    (plotFlag : Bool) (saveData : Option String) (e : String)
    (hex : fs.pathExists iArg = true) (hfile : fs.isRegularFile iArg = true)
    (hs : ext.setup_from_namelist (fs.readLines iArg) = Except.error e) :
    sscha_main fs ext iArg plotFlag saveData =
      { trace := [Event.constructMinimizer, Event.openFile iArg "r",
                  Event.readlines iArg, Event.closeFile iArg,
                  Event.setupFromNamelist (fs.readLines iArg)],
        outcome := Outcome.uncaught e } := by
  unfold sscha_main parse_args is_valid_file
  simp [hex, hfile, hs]

/-- Shared lemma: a failing `init` ends the run there with its error
uncaught. -/
theorem sscha_main_init_error (fs : FileSystem) (ext : ExternalLib) (iArg : String)
    (plotFlag : Bool) (saveData : Option String) (e : String)
    (hex : fs.pathExists iArg = true) (hfile : fs.isRegularFile iArg = true)
    (hs : ext.setup_from_namelist (fs.readLines iArg) = Except.ok ())
    (hi : ext.init_result = Except.error e) :
    sscha_main fs ext iArg plotFlag saveData =
      { trace := [Event.constructMinimizer, Event.openFile iArg "r",
                  Event.readlines iArg, Event.closeFile iArg,
                  Event.setupFromNamelist (fs.readLines iArg), Event.initCall],
        outcome := Outcome.uncaught e } := by
  unfold sscha_main parse_args is_valid_file
  simp [hex, hfile, hs, hi]

/-- Shared lemma: a failing `run` ends the run there with its error
uncaught. -/
theorem sscha_main_run_error (fs : FileSystem) (ext : ExternalLib) (iArg : String)
    (plotFlag : Bool) (saveData : Option String) (e : String)
    (hex : fs.pathExists iArg = true) (hfile : fs.isRegularFile iArg = true)
    (hs : ext.setup_from_namelist (fs.readLines iArg) = Except.ok ())
    (hi : ext.init_result = Except.ok ())
    (hr : ext.run_result = Except.error e) :
    sscha_main fs ext iArg plotFlag saveData =
      { trace := [Event.constructMinimizer, Event.openFile iArg "r",
                  Event.readlines iArg, Event.closeFile iArg,
                  Event.setupFromNamelist (fs.readLines iArg), Event.initCall,
                  Event.runCall],
        outcome := Outcome.uncaught e } := by
  unfold sscha_main parse_args is_valid_file
  simp [hex, hfile, hs, hi, hr]

/-- Shared lemma: a failing `finalize(2)` ends the run there with its error
uncaught. -/
theorem sscha_main_finalize_error (fs : FileSystem) (ext : ExternalLib) (iArg : String)
    (plotFlag : Bool) (saveData : Option String) (e : String)
    (hex : fs.pathExists iArg = true) (hfile : fs.isRegularFile iArg = true)
    (hs : ext.setup_from_namelist (fs.readLines iArg) = Except.ok ())
    (hi : ext.init_result = Except.ok ())
    (hr : ext.run_result = Except.ok ())
    (hf : ext.finalize_result 2 = Except.error e) :
    sscha_main fs ext iArg plotFlag saveData =
      { trace := [Event.constructMinimizer, Event.openFile iArg "r",
                  Event.readlines iArg, Event.closeFile iArg,
                  Event.setupFromNamelist (fs.readLines iArg), Event.initCall,
                  Event.runCall, Event.finalizeCall 2],
        outcome := Outcome.uncaught e } := by
  unfold sscha_main parse_args is_valid_file
  simp [hex, hfile, hs, hi, hr, hf]

/-- C10: the driver never writes the input file: in every run, every file
`open` it performs uses mode `"r"`, the input file is closed before
`setup_from_namelist` or any lifecycle call, the only write targets in the
trace are the external save locations (`dyn_path`-derived prefix and the
`--save-data` path), and — as long as those configured targets are not the
input path itself — the input file's readable contents are unchanged by the
run. -/
theorem C10_input_file_unchanged (fs : FileSystem) (ext : ExternalLib)
    (iArg : String) (plotFlag : Bool) (saveData : Option String)
    (h1 : dynSaveName ext ≠ iArg) (h2 : saveData ≠ some iArg) :
    opensReadOnly (sscha_main fs ext iArg plotFlag saveData).trace = true ∧
    noLifecycleBeforeClose iArg (sscha_main fs ext iArg plotFlag saveData).trace = true ∧
    ((sscha_main fs ext iArg plotFlag saveData).trace.flatMap writeTargets).all
        (fun p => p == dynSaveName ext || saveData == some p) = true ∧
    (((sscha_main fs ext iArg plotFlag saveData).trace.foldl applyEvent fs).readLines
        iArg) = fs.readLines iArg := by
  cases hex : fs.pathExists iArg with
  | false =>
    rw [sscha_main_nonexistent fs ext iArg plotFlag saveData hex]
    exact ⟨rfl, rfl, rfl, rfl⟩
  | true =>
    cases hfile : fs.isRegularFile iArg with
    | false =>
      rw [sscha_main_notfile fs ext iArg plotFlag saveData hex hfile]
      exact ⟨rfl, rfl, rfl, rfl⟩
    | true =>
      cases hs : ext.setup_from_namelist (fs.readLines iArg) with
      | error e =>
        rw [sscha_main_setup_error fs ext iArg plotFlag saveData e hex hfile hs]
        refine ⟨rfl, ?_, rfl, rfl⟩
        simp [noLifecycleBeforeClose, isCloseOf, lifecycleEvent]
      | ok u =>
        cases u
        cases hi : ext.init_result with
        | error e =>
          rw [sscha_main_init_error fs ext iArg plotFlag saveData e hex hfile hs hi]
          refine ⟨rfl, ?_, rfl, rfl⟩
          simp [noLifecycleBeforeClose, isCloseOf, lifecycleEvent]
        | ok u =>
          cases u
          cases hr : ext.run_result with
          | error e =>
            rw [sscha_main_run_error fs ext iArg plotFlag saveData e hex hfile hs hi hr]
            refine ⟨rfl, ?_, rfl, rfl⟩
            simp [noLifecycleBeforeClose, isCloseOf, lifecycleEvent]
          | ok u =>
            cases u
            cases hf : ext.finalize_result 2 with
            | error e =>
              rw [sscha_main_finalize_error fs ext iArg plotFlag saveData e hex hfile
                hs hi hr hf]
              refine ⟨rfl, ?_, rfl, rfl⟩
              simp [noLifecycleBeforeClose, isCloseOf, lifecycleEvent]
            | ok u =>
              cases u
              rw [sscha_main_success fs ext iArg plotFlag saveData hfile hs hi hr hf]
              cases saveData with
              | none =>
                refine ⟨rfl, ?_, ?_, ?_⟩
                · simp [successTrace, noLifecycleBeforeClose, isCloseOf, lifecycleEvent]
                · simp [successTrace, writeTargets]
                · show (FileSystem.readLines ⟨fs.dirs,
                      (dynSaveName ext, ["<dynamical matrix>"]) :: fs.files⟩ iArg) =
                    fs.readLines iArg
                  exact readLines_cons_ne fs.dirs fs.files (dynSaveName ext) _ iArg h1
              | some f =>
                have hfq : f ≠ iArg := fun hc => h2 (by rw [hc])
                refine ⟨rfl, ?_, ?_, ?_⟩
                · simp [successTrace, noLifecycleBeforeClose, isCloseOf, lifecycleEvent]
                · simp [successTrace, writeTargets]
                · show (FileSystem.readLines ⟨fs.dirs, (f, ["<minimization data>"]) ::
                      (dynSaveName ext, ["<dynamical matrix>"]) :: fs.files⟩ iArg) =
                    fs.readLines iArg
                  rw [readLines_cons_ne fs.dirs ((dynSaveName ext,
                    ["<dynamical matrix>"]) :: fs.files) f _ iArg hfq]
                  exact readLines_cons_ne fs.dirs fs.files (dynSaveName ext) _ iArg h1

/-- Witness for C10 at a concrete completed run whose save targets differ from
the input path: the input file's contents are unchanged. -/
theorem C10_witness :
    opensReadOnly (sscha_main ⟨[], [("input.in", ["&inputscha", "&end"])]⟩ extOk
        "input.in" true (some "out.dat")).trace = true ∧
    noLifecycleBeforeClose "input.in" (sscha_main ⟨[], [("input.in",
        ["&inputscha", "&end"])]⟩ extOk "input.in" true (some "out.dat")).trace = true ∧
    ((sscha_main ⟨[], [("input.in", ["&inputscha", "&end"])]⟩ extOk "input.in" true
        (some "out.dat")).trace.flatMap writeTargets).all
        (fun p => p == dynSaveName extOk || (some "out.dat" : Option String) == some p)
        = true ∧
    (((sscha_main ⟨[], [("input.in", ["&inputscha", "&end"])]⟩ extOk "input.in" true
        (some "out.dat")).trace.foldl applyEvent
          ⟨[], [("input.in", ["&inputscha", "&end"])]⟩).readLines "input.in") =
      FileSystem.readLines ⟨[], [("input.in", ["&inputscha", "&end"])]⟩ "input.in" :=
  C10_input_file_unchanged ⟨[], [("input.in", ["&inputscha", "&end"])]⟩ extOk
    "input.in" true (some "out.dat") (by decide) (by decide)

/-- Characters treated as horizontal whitespace when trimming a namelist
line. -/
def isSpaceChar (c : Char) : Bool :=
  c == ' ' || c == '\t' || c == '\r'

/-- Drop leading whitespace characters. -/
def dropLeadingSpace : List Char → List Char
  | [] => []
  | c :: cs => if isSpaceChar c then dropLeadingSpace cs else c :: cs

/-- Trim whitespace at both ends of a line. -/
def trimChars (cs : List Char) : List Char :=
  (dropLeadingSpace (dropLeadingSpace cs).reverse).reverse

/-- Split a character list on a separator character. -/
def splitOnChar (sep : Char) : List Char → List (List Char)
  | [] => [[]]
  | c :: cs =>
    if c == sep then
      [] :: splitOnChar sep cs
    else
      match splitOnChar sep cs with
      | [] => [[c]]
      | g :: gs => (c :: g) :: gs

/-- All characters are decimal digits. -/
def allDigits (cs : List Char) : Bool :=
  cs.all Char.isDigit

/-- An optionally negated decimal integer token. -/
def isIntToken (cs : List Char) : Bool :=
  match cs with
  | '-' :: rest => !rest.isEmpty && allDigits rest
  | _ => !cs.isEmpty && allDigits cs

/-- An optionally negated decimal number, with an optional fractional part. -/
def isNumberToken (cs : List Char) : Bool :=
  let t := match cs with
    | '-' :: rest => rest
    | _ => cs
  match splitOnChar '.' t with
  | [d] => !d.isEmpty && allDigits d
  | [d, f] => !d.isEmpty && allDigits d && !f.isEmpty && allDigits f
  | _ => false

/-- A Fortran boolean literal. -/
def isFortranBool (cs : List Char) : Bool :=
  cs == ".true.".toList || cs == ".false.".toList

/-- A double-quoted string literal. -/
def isQuotedString (cs : List Char) : Bool :=
  match cs with
  | '"' :: rest => !rest.isEmpty && rest.getLast? == some '"'
  | _ => false

/-- A namelist key: a letter or underscore followed by letters, digits, or
underscores. -/
def isKeyName (cs : List Char) : Bool :=
  match cs with
  | [] => false
  | c :: rest => (c.isAlpha || c == '_') && rest.all (fun d => d.isAlphanum || d == '_')

/-- A value: a scalar (quoted string, number, Fortran boolean) or a
space-separated array of at least two integers. -/
def isValueText (cs : List Char) : Bool :=
  isQuotedString cs || isNumberToken cs || isFortranBool cs ||
    (let toks := (splitOnChar ' ' cs).filter (fun t => !t.isEmpty)
     decide (2 ≤ toks.length) && toks.all isIntToken)

/-- The syntactic classes of a conforming namelist line. -/
inductive LineClass where
  | blank : LineClass
  | comment : LineClass
  | opener : String → LineClass
  | closer : LineClass
  | assignment : LineClass
  deriving Repr, DecidableEq

/-- Classify one line of namelist text (leading whitespace ignored, as in the
Fortran namelist format): blank, `!` comment, `&groupname` opener, `&end`
terminator, or `key = value` assignment; `none` when the line conforms to no
class of the grammar. -/
def classifyLine (cs : List Char) : Option LineClass :=
  match trimChars cs with
  | [] => some LineClass.blank
  | '!' :: _ => some LineClass.comment
  | '&' :: name =>
    if name == "end".toList then some LineClass.closer
    else if !name.isEmpty && name.all Char.isAlpha then
      some (LineClass.opener (String.mk name))
    else none
  | t =>
    match splitOnChar '=' t with
    | [k, v] =>
      if isKeyName (trimChars k) && isValueText (trimChars v) then
        some LineClass.assignment
      else none
    | _ => none

/-- Scan the lines of a namelist file. The state is the currently open group
(if any) and the group names opened so far (reversed). Returns the list of
groups, in order, when every line conforms, every group is opened before it is
terminated and is terminated before the file ends, no group opens inside
another, and every assignment lies inside a group; `none` otherwise. -/
def checkLines : Option String → List String → List (List Char) → Option (List String)
  | none, seen, [] => some seen.reverse
  | some _, _, [] => none
  | st, seen, cs :: rest =>
    match classifyLine cs, st with
    | some LineClass.blank, _ => checkLines st seen rest
    | some LineClass.comment, _ => checkLines st seen rest
    | some (LineClass.opener g), none => checkLines (some g) (g :: seen) rest
    | some (LineClass.opener _), some _ => none
    | some LineClass.closer, some _ => checkLines none seen rest
    | some LineClass.closer, none => none
    | some LineClass.assignment, some _ => checkLines st seen rest
    | some LineClass.assignment, none => none
    | none, _ => none

/-- The lines of `Examples/LockModes/simple_mode_locking.in`, verbatim. -/
def simple_mode_locking_in : List String :=
  ["! MODE LOCKING EXAMPLE",
   "! ====================",
   "!",
   "! This is an example of constrained sscha minimization",
   "! only in a subspace identified by the vibrons of the ice.",
   "!",
   "! Run this code as usual:",
   "! sscha -i simple_mode_locking.in [--plot-results]",
   "! Use the last options if you want fancy plots of the minimization at the end.",
   "!",
   "! Note that a file frequencies.dat is generated",
   "! (thanks to save_freq_filename keyword)",
   "! You can plot the rows of the files to see how the frequencies are evolving",
   "! Example (using ipython):",
   "! >>> %pylab",
   "! >>> data = loadtxt(\"frequencies.dat\")",
   "! >>> n_steps, n_freqs = shape(data)",
   "! >>> for i in range(n_freqs):",
   "! >>>     plot(data[:, i])",
   "! >>> show()",
   "!",
   "! This will show the frequencies (in Ry), as a function of the minimization.",
   "! You can show cm-1 using the cellconstructor.Phonons.RY_TO_CM constant",
   "!",
   "!",
   "! In the case of a supercell, the modes will be blocked in the whole q space.",
   "! Make sure they do not cross with other modes in the Brilluin zone.",
   "! To have a more detailed control on the modes to lock, use the python script instead",
   "! ",
   "!",
   "",
   "! Setup the standard sscha",
   "&inputscha",
   "\tfildyn_prefix = \"../ensemble_data_test/dyn\"",
   "\tnqirr = 1",
   "\tsupercell_size = 1 1 1",
   "",
   "\tdata_dir = \"../ensemble_data_test\"",
   "",
   "\tT = 0",
   "\tTg = 0",
   "",
   "\teq_energy = -144.40680397",
   "\tn_random = 100",
   "\tn_random_eff = 50",
   "\tpopulation = 2",
   "\tmeaningful_factor = 0.5",
   "&end",
   "",
   "! Now in this namespace we setup the mode locking and",
   "! some fancy printing",
   "&utils",
   "\t! We lock everithing but the last three modes",
   "\t! Note, we can do the opposite using the",
   "\t! mu_lock_start and mu_lock_end.",
   "\tmu_free_start = 30",
   "\tmu_free_end = 36",
   "",
   "\t! We project on the mode subspace only the dynamical matrix",
   "\t! leaving the structure to be optimized in all the space.",
   "\tproject_dyn = .true.",
   "\tproject_structure = .false.",
   "",
   "\t! Setup the file in which to save the frequency evolution",
   "\tsave_freq_filename = \"frequencies.dat\"",
   "&end" ]

/-- C7: every non-blank line of `simple_mode_locking.in` is a `!` comment, a
`&groupname` opener, the `&end` terminator, or a key/value assignment (scalar
string, number, Fortran boolean, or space-separated integer array) inside a
group; its two groups `&inputscha` and `&utils` are each opened before being
terminated, in this order, and no assignment appears outside a group. -/
theorem C7_namelist_conforms :
    checkLines none [] (simple_mode_locking_in.map String.toList) =
      some ["inputscha", "utils"] ∧
    (simple_mode_locking_in.map (fun s => classifyLine s.toList)).all
      Option.isSome = true := by
  constructor
  · rfl
  · rfl

end Sscha
